import Mathlib

/-!
Verification of the context/response layer of the lightbulb command framework
(`lightbulb/context/base.py`): `OptionsProxy`, `ResponseProxy`, `Context.invoke`,
and `ApplicationContext` with its two-state `respond` machine.

The Python code is embedded shallowly. Asynchronous effectful calls against the
platform client are modelled as explicit state-passing functions over an opaque
world type `σ`: a call takes the world and returns its result (possibly a raised
error, as `Except`) together with the updated world. Python exceptions are the
`PyError` type; raising is returning `.error`. Python `dict` keyword arguments
are a record of optional fields (`none` = key absent; `pop` sets a field to
`none`, `setdefault` fills a `none` field). Python mutation of the context's
response list is modelled by returning the updated context.
-/

namespace Lightbulb

/-- Python exceptions that this layer can raise or propagate. `platformError`
stands for arbitrary failures raised by the wrapped client library. -/
inductive PyError where
  | valueError
  | typeError
  | assertionError
  | platformError (code : Nat)
deriving DecidableEq

/-- `hikari.ResponseType` tokens used by this layer. -/
inductive ResponseType where
  | MESSAGE_CREATE
  | DEFERRED_MESSAGE_CREATE
  | MESSAGE_UPDATE
  | DEFERRED_MESSAGE_UPDATE
deriving DecidableEq

/-- A `hikari.Message`, opaque except for identity. -/
structure Message where
  id : Nat
deriving DecidableEq

/-- A Python value that can appear as a positional argument to `respond` or as
an option value: either a response-type token (`isinstance(x, ResponseType)`
holds exactly of `vrt`) or any other payload, represented by a string. -/
inductive Value where
  | vstr (s : String)
  | vrt (r : ResponseType)
deriving DecidableEq

/-- The keyword arguments that `ApplicationContext.respond` inspects, pops or
sets. A field of `none` means the key is absent from the `kwargs` dict. -/
structure Kwargs where
  response_type : Option ResponseType := none
  content : Option Value := none
  reply : Option Value := none
  mentions_reply : Option Value := none
  nonce : Option Value := none
  attachment : Option Value := none
  attachments : Option Value := none
deriving DecidableEq

/-- A zero-argument asynchronous callable producing a message: takes the world,
returns the raised-or-returned result and the new world. -/
abbrev Fetcher (σ : Type) := σ → Except PyError Message × σ

/-- `lightbulb.context.base.OptionsProxy`: wraps the options dict
(`self._options = options`). The dict is an association list. -/
structure OptionsProxy where
  _options : List (String × Value)

/-- `OptionsProxy.__getattr__`: `return self._options.get(item)`. -/
def OptionsProxy.getattr (p : OptionsProxy) (item : String) : Option Value :=
  p._options.lookup item

/-- `lightbulb.context.base.ResponseProxy` (`__slots__ = ("_message", "_fetcher")`). -/
structure ResponseProxy (σ : Type) where
  _message : Option Message
  _fetcher : Option (Fetcher σ)

/-- `ResponseProxy.__init__`: raises `ValueError` when both `message` and
`fetcher` are `None`, otherwise stores both as given. -/
def ResponseProxy.init (message : Option Message) (fetcher : Option (Fetcher σ)) :
    Except PyError (ResponseProxy σ) :=
  if message.isNone ∧ fetcher.isNone then
    .error .valueError
  else
    .ok { _message := message, _fetcher := fetcher }

/-- `ResponseProxy.message`: return the stored message when present; otherwise
invoke the fetcher (asserting it is present) and return its result. Note the
method writes no field: the proxy itself is unchanged by a call. -/
def ResponseProxy.message (p : ResponseProxy σ) (w : σ) : Except PyError Message × σ :=
  match p._message with
  | some m => (.ok m, w)
  | none =>
    match p._fetcher with
    | some f => f w
    | none => (.error .assertionError, w)

/-- A command as seen by `Context.invoke`: exposes `name`, `auto_defer` and an
`invoke(context)` coroutine, generic in the context type `κ`. -/
structure Command (κ : Type) where
  name : String
  auto_defer : Bool
  invoke : κ → Except PyError Unit

/-- `Context.invoke`: `if self.command is None: raise TypeError(...)` then
`await self.command.invoke(self)`. The abstract `command` property is passed
explicitly alongside the context object `ctx`. -/
def Context.invoke {κ : Type} (command : Option (Command κ)) (ctx : κ) :
    Except PyError Unit :=
  match command with
  | none => .error .typeError
  | some c => c.invoke ctx

/-- The `hikari.CommandInteraction` collaborator: the three platform calls
`ApplicationContext.respond` and the deferred fetcher use. -/
structure Interaction (σ : Type) where
  create_initial_response : Kwargs → σ → Except PyError Unit × σ
  execute : List Value → Kwargs → σ → Except PyError Message × σ
  fetch_initial_response : Fetcher σ

/-- The payload of `event.interaction`: a command interaction or anything else
(the constructor asserts it is a command interaction). -/
inductive EventInteraction (σ : Type) where
  | commandInteraction (i : Interaction σ)
  | other

/-- A `hikari.InteractionCreateEvent`. -/
structure InteractionCreateEvent (σ : Type) where
  interaction : EventInteraction σ

/-- An application command as stored by `ApplicationContext`: only the fields
this layer reads (`name` via `invoked_with`, `auto_defer` in the constructor). -/
structure ApplicationCommand where
  name : String
  auto_defer : Bool
deriving DecidableEq

/-- `lightbulb.context.base.ApplicationContext`: the response history from the
`Context` base plus the bound event, interaction and command. -/
structure ApplicationContext (σ : Type) where
  _responses : List (ResponseProxy σ)
  _event : InteractionCreateEvent σ
  _interaction : Interaction σ
  _command : ApplicationCommand

/-- `Context.responses` property. -/
def ApplicationContext.responses (ctx : ApplicationContext σ) : List (ResponseProxy σ) :=
  ctx._responses

/-- `Context.previous_response`: `self._responses[-1] if self._responses else None`. -/
def ApplicationContext.previous_response (ctx : ApplicationContext σ) :
    Option (ResponseProxy σ) :=
  if ctx._responses.isEmpty then none else ctx._responses.getLast?

/-- A task scheduled with `asyncio.create_task`, recorded (not executed): the
arguments of the `self.respond(...)` call it will perform. -/
inductive ScheduledTask where
  | respondTask (args : List Value) (kwargs : Kwargs)
deriving DecidableEq

/-- `ApplicationContext.__init__`: assert the event carries a command
interaction, bind the fields with an empty response history, and, when the
command is flagged `auto_defer`, schedule (without running) a fire-and-forget
`respond(ResponseType.DEFERRED_MESSAGE_CREATE)` task. The scheduled tasks are
returned alongside the context; none has run when construction returns. -/
def ApplicationContext.init (event : InteractionCreateEvent σ)
    (command : ApplicationCommand) :
    Except PyError (ApplicationContext σ × List ScheduledTask) :=
  match event.interaction with
  | .other => .error .assertionError
  | .commandInteraction i =>
    let ctx : ApplicationContext σ :=
      { _responses := [], _event := event, _interaction := i, _command := command }
    if command.auto_defer then
      .ok (ctx, [.respondTask [.vrt .DEFERRED_MESSAGE_CREATE] {}])
    else
      .ok (ctx, [])

/-- `respond`, lines 304-306: `kwargs.pop("reply")`, `kwargs.pop("mentions_reply")`,
`kwargs.pop("nonce")`. -/
def stripCommonKwargs (kwargs : Kwargs) : Kwargs :=
  { kwargs with reply := none, mentions_reply := none, nonce := none }

/-- `respond`, lines 310-311 (follow-up branch): drop a leading positional
response-type token. -/
def stripFollowupArgs (args : List Value) : List Value :=
  match args with
  | .vrt _ :: rest => rest
  | _ => args

/-- `respond`, lines 316-323 (initial branch): fold positional arguments into
keyword arguments. A non-token first positional becomes `content` and
`response_type` defaults to `MESSAGE_CREATE`; a token first positional becomes
`response_type` and a second positional becomes the `content` default. -/
def applyInitialArgs (args : List Value) (kwargs : Kwargs) : Kwargs :=
  match args with
  | [] => kwargs
  | .vstr c :: _ =>
    let k := { kwargs with content := some (.vstr c) }
    { k with response_type := some (k.response_type.getD .MESSAGE_CREATE) }
  | .vrt r :: rest =>
    let k := { kwargs with response_type := some r }
    match rest with
    | [] => k
    | v :: _ => { k with content := some (k.content.getD v) }

/-- `respond`, lines 325-326 (initial branch): `kwargs.pop("attachment")`,
`kwargs.pop("attachments")`. -/
def stripAttachmentKwargs (kwargs : Kwargs) : Kwargs :=
  { kwargs with attachment := none, attachments := none }

/-- `ApplicationContext.respond`. With a non-empty history: strip the
`response_type` keyword and a leading positional token, call
`interaction.execute`, append a proxy wrapping the returned message, return it.
With an empty history: normalize positionals into keywords, strip attachment
keywords, call `interaction.create_initial_response`, append a proxy backed by
the deferred `fetch_initial_response` fetcher, return it. A raised platform
error propagates and the history is left unchanged (the `append` comes after
the `await`). -/
def ApplicationContext.respond (ctx : ApplicationContext σ) (args : List Value)
    (kwargs : Kwargs) (w : σ) :
    Except PyError (ResponseProxy σ) × ApplicationContext σ × σ :=
  let kwargs := stripCommonKwargs kwargs
  match ctx._responses with
  | _ :: _ =>
    let kwargs := { kwargs with response_type := none }
    let args := stripFollowupArgs args
    match ctx._interaction.execute args kwargs w with
    | (.error e, w') => (.error e, ctx, w')
    | (.ok msg, w') =>
      let p : ResponseProxy σ := { _message := some msg, _fetcher := none }
      (.ok p, { ctx with _responses := ctx._responses ++ [p] }, w')
  | [] =>
    let kwargs := stripAttachmentKwargs (applyInitialArgs args kwargs)
    match ctx._interaction.create_initial_response kwargs w with
    | (.error e, w') => (.error e, ctx, w')
    | (.ok _, w') =>
      let p : ResponseProxy σ :=
        { _message := none, _fetcher := some ctx._interaction.fetch_initial_response }
      (.ok p, { ctx with _responses := ctx._responses ++ [p] }, w')

/-! Concrete collaborators used by witnesses: a well-behaved interaction whose
world is an operation counter, a failing interaction, and sample commands. -/

/-- A platform interaction that succeeds on every call; the world `Nat` counts
how many platform calls have happened, and returned messages carry the counter. -/
def pureInteraction : Interaction Nat where
  create_initial_response := fun _ w => (.ok (), w + 1)
  execute := fun _ _ w => (.ok ⟨w⟩, w + 1)
  fetch_initial_response := fun w => (.ok ⟨w⟩, w + 1)

/-- A platform interaction whose every call raises a distinct platform error. -/
def failInteraction : Interaction Nat where
  create_initial_response := fun _ w => (.error (.platformError 1), w)
  execute := fun _ _ w => (.error (.platformError 2), w)
  fetch_initial_response := fun w => (.error (.platformError 3), w)

/-- An event carrying a command interaction. -/
def demoEvent : InteractionCreateEvent Nat := ⟨.commandInteraction pureInteraction⟩

/-- An application command with auto-defer enabled. -/
def deferCommand : ApplicationCommand := ⟨"slow", true⟩

/-- An application command without auto-defer. -/
def noDeferCommand : ApplicationCommand := ⟨"greet", false⟩

/-- A context with empty response history over the succeeding interaction. -/
def emptyCtx : ApplicationContext Nat :=
  { _responses := [], _event := demoEvent, _interaction := pureInteraction,
    _command := noDeferCommand }

/-- A proxy wrapping an already-known message. -/
def knownProxy : ResponseProxy Nat := { _message := some ⟨7⟩, _fetcher := none }

/-- A context that has already sent one response. -/
def oneRespCtx : ApplicationContext Nat := { emptyCtx with _responses := [knownProxy] }

/-- A context with empty response history over the failing interaction. -/
def failCtx : ApplicationContext Nat :=
  { _responses := [], _event := ⟨.commandInteraction failInteraction⟩,
    _interaction := failInteraction, _command := noDeferCommand }

/-- A one-response context over the failing interaction. -/
def failCtx2 : ApplicationContext Nat := { failCtx with _responses := [knownProxy] }

/-- A fetcher that always succeeds with message 0 and leaves the world alone. -/
def constFetcher : Fetcher Nat := fun w => (.ok ⟨0⟩, w)

/-- A fetcher over a call-counter world: each invocation returns a message
carrying the current count and increments it. -/
def countingFetcher : Fetcher Nat := fun n => (.ok ⟨n⟩, n + 1)

/-- A fetcher-backed proxy over the counting fetcher. -/
def countingProxy : ResponseProxy Nat := { _message := none, _fetcher := some countingFetcher }

/-- A command whose body does nothing, for dispatch tests. -/
def demoCommand : Command Nat := { name := "demo", auto_defer := false, invoke := fun _ => .ok () }

/-- Claim C3, counterexample: `ResponseProxy` construction also succeeds when
BOTH `message` and `fetcher` are supplied (the code only rejects both absent),
so "succeeds if and only if exactly one is supplied" is false: here both
arguments are present (`isSome`) and construction returns `.ok`. -/
theorem responseProxy_init_both_supplied_cex :
    ResponseProxy.init (some ⟨0⟩) (some constFetcher) =
      .ok { _message := some ⟨0⟩, _fetcher := some constFetcher } ∧
    (some (⟨0⟩ : Message)).isSome = true ∧ (some constFetcher).isSome = true := by
  refine ⟨?_, rfl, rfl⟩
  simp [ResponseProxy.init]

/-- Claim C3 (amended): construction succeeds if and only if at least one of
`message` and `fetcher` is supplied; with both absent it fails with
`ValueError`. -/
theorem responseProxy_init_ok_iff (σ : Type) (message : Option Message)
    (fetcher : Option (Fetcher σ)) :
    ((∃ p, ResponseProxy.init message fetcher = .ok p) ↔
      (message.isSome = true ∨ fetcher.isSome = true)) ∧
    ResponseProxy.init (σ := σ) none none = .error .valueError := by
  constructor
  · cases message <;> cases fetcher <;> simp [ResponseProxy.init]
  · rfl

/-- Claim C4, counterexample: `message()` does not memoize. Over a
call-counter world, the first call on a fetcher-backed proxy invokes the
fetcher (counter 0 → 1) and yields message 0; a second call on the very same
(unchanged) proxy invokes the fetcher again (counter 1 → 2) and yields a
different message — so the first result is not cached and the fetcher is not
invoked at most once. -/
theorem responseProxy_message_not_memoized_cex :
    countingProxy.message 0 = (.ok ⟨0⟩, 1) ∧
    countingProxy.message 1 = (.ok ⟨1⟩, 2) ∧
    (⟨0⟩ : Message) ≠ (⟨1⟩ : Message) := by
  refine ⟨rfl, rfl, by decide⟩

/-- Claim C4 (amended): for a fetcher-backed proxy, every call to `message()`
simply invokes the fetcher on the current world and returns its result; the
proxy caches nothing (the method writes no field), so each call re-invokes the
fetcher. -/
theorem responseProxy_message_fetcher_every_call (σ : Type) (f : Fetcher σ) (w : σ) :
    ResponseProxy.message { _message := none, _fetcher := some f } w = f w := rfl

/-- Claim C5: attribute access on `OptionsProxy M` is total (it returns an
`Option`, never raising): a key bound in `M` yields its value, an unbound key
yields `none` (Python `None`). -/
theorem optionsProxy_getattr_spec (M : List (String × Value)) (k : String) :
    (∀ v, M.lookup k = some v → (OptionsProxy.mk M).getattr k = some v) ∧
    (M.lookup k = none → (OptionsProxy.mk M).getattr k = none) := by
  exact ⟨fun v h => h, fun h => h⟩

/-- Claim C5, witness: a concrete mapping with key `"x"` bound; lookup of
`"x"` returns its value and lookup of the unbound `"y"` returns `none`. -/
theorem optionsProxy_getattr_spec_witness :
    (OptionsProxy.mk [("x", .vstr "1")]).getattr "x" = some (.vstr "1") ∧
    (OptionsProxy.mk [("x", .vstr "1")]).getattr "y" = none :=
  ⟨(optionsProxy_getattr_spec [("x", .vstr "1")] "x").1 (.vstr "1") (by decide),
    (optionsProxy_getattr_spec [("x", .vstr "1")] "y").2 (by decide)⟩

/-- Claim C6: a proxy constructed with a known message `m` (with or without a
fetcher also supplied) is accepted by the constructor, and `message()` returns
`m` with the world unchanged — no fetcher is invoked, whatever `f` is. -/
theorem responseProxy_message_known (σ : Type) (m : Message) (f : Option (Fetcher σ)) (w : σ) :
    ResponseProxy.init (some m) f = .ok { _message := some m, _fetcher := f } ∧
    ResponseProxy.message { _message := some m, _fetcher := f } w = (.ok m, w) := by
  exact ⟨by simp [ResponseProxy.init], rfl⟩

/-- Claim C7: `invoke()` with no resolved command raises `TypeError` (and hence
dispatches nothing); with a resolved command `c` it is exactly the dispatch
`c.invoke ctx`. -/
theorem context_invoke_dispatch (κ : Type) (ctx : κ) (command : Option (Command κ)) :
    (command = none → Context.invoke command ctx = .error .typeError) ∧
    ∀ c, command = some c → Context.invoke command ctx = c.invoke ctx := by
  constructor
  · intro h; subst h; rfl
  · intro c h; subst h; rfl

/-- Claim C7, witness: at a concrete context, the absent-command case raises
`TypeError` and the resolved-command case dispatches to the command body. -/
theorem context_invoke_dispatch_witness :
    Context.invoke (κ := Nat) none 0 = .error .typeError ∧
    Context.invoke (some demoCommand) 0 = demoCommand.invoke 0 :=
  ⟨(context_invoke_dispatch Nat 0 none).1 rfl,
    (context_invoke_dispatch Nat 0 (some demoCommand)).2 demoCommand rfl⟩

/-- Claim C8: constructing an `ApplicationContext` from a command-interaction
event: when the command is flagged `auto_defer` the constructor returns with a
single scheduled fire-and-forget `respond(DEFERRED_MESSAGE_CREATE)` task, not
yet run (the returned history is still empty, so construction was not blocked
on it); when the flag is off, no task is scheduled. -/
theorem applicationContext_init_auto_defer (σ : Type) (event : InteractionCreateEvent σ)
    (i : Interaction σ) (command : ApplicationCommand)
    (hev : event.interaction = .commandInteraction i) :
    (command.auto_defer = true →
      ApplicationContext.init event command =
        .ok ({ _responses := [], _event := event, _interaction := i, _command := command },
          [.respondTask [.vrt .DEFERRED_MESSAGE_CREATE] {}])) ∧
    (command.auto_defer = false →
      ApplicationContext.init event command =
        .ok ({ _responses := [], _event := event, _interaction := i, _command := command },
          [])) := by
  unfold ApplicationContext.init
  rw [hev]
  constructor <;> intro h <;> simp [h]

/-- Claim C8, witness: constructing over a concrete auto-defer command yields
the deferred-respond task and an empty (unblocked) history. -/
theorem applicationContext_init_auto_defer_witness :
    demoEvent.interaction = .commandInteraction pureInteraction ∧
    deferCommand.auto_defer = true ∧
    ApplicationContext.init demoEvent deferCommand =
      .ok ({ _responses := [], _event := demoEvent, _interaction := pureInteraction, _command := deferCommand },
        [.respondTask [.vrt .DEFERRED_MESSAGE_CREATE] {}]) :=
  ⟨rfl, rfl,
    (applicationContext_init_auto_defer Nat demoEvent pureInteraction deferCommand rfl).1 rfl⟩

/-- Claim C1: on a context with empty history, `respond c` with non-token
content `c` calls `create_initial_response` with `content := c` and
`response_type` defaulted to `MESSAGE_CREATE`, appends a `ResponseProxy`
backed by the deferred `fetch_initial_response` fetcher and no materialized
message, returns that proxy, and leaves the history with length 1. -/
theorem respond_first_call_content (σ : Type) (ctx : ApplicationContext σ) (c : String)
    (w w' : σ) (h0 : ctx._responses = [])
    (hcall : ctx._interaction.create_initial_response
      { content := some (.vstr c), response_type := some .MESSAGE_CREATE } w = (.ok (), w')) :
    ctx.respond [.vstr c] {} w =
      (.ok { _message := none, _fetcher := some ctx._interaction.fetch_initial_response },
        { ctx with _responses :=
          [{ _message := none, _fetcher := some ctx._interaction.fetch_initial_response }] },
        w') ∧
    (ctx.respond [.vstr c] {} w).2.1._responses.length = 1 := by
  have hk : stripAttachmentKwargs (applyInitialArgs [.vstr c] (stripCommonKwargs {})) =
      { content := some (.vstr c), response_type := some .MESSAGE_CREATE } := rfl
  have main : ctx.respond [.vstr c] {} w =
      (.ok { _message := none, _fetcher := some ctx._interaction.fetch_initial_response },
        { ctx with _responses :=
          [{ _message := none, _fetcher := some ctx._interaction.fetch_initial_response }] },
        w') := by
    simp only [ApplicationContext.respond, h0]
    rw [hk, hcall]
    rfl
  exact ⟨main, by rw [main]; rfl⟩

/-- Claim C1, witness: first `respond "hello"` on a concrete empty-history
context over the counting interaction. -/
theorem respond_first_call_content_witness :
    emptyCtx._responses = [] ∧
    emptyCtx._interaction.create_initial_response
      { content := some (.vstr "hello"), response_type := some .MESSAGE_CREATE } 0 =
      (.ok (), 1) ∧
    (emptyCtx.respond [.vstr "hello"] {} 0 =
      (.ok { _message := none, _fetcher := some emptyCtx._interaction.fetch_initial_response },
        { emptyCtx with _responses :=
          [{ _message := none, _fetcher := some emptyCtx._interaction.fetch_initial_response }] },
        1) ∧
    (emptyCtx.respond [.vstr "hello"] {} 0).2.1._responses.length = 1) :=
  ⟨rfl, rfl, respond_first_call_content Nat emptyCtx "hello" 0 1 rfl rfl⟩

/-- Claim C2: on a context with non-empty history, `respond` strips the
`response_type` keyword and a leading positional response-type token, calls
`interaction.execute`, appends a proxy directly wrapping the returned message
(no deferred fetcher), returns that proxy, grows the history by one, and
afterwards `previous_response` is the returned proxy. -/
theorem respond_followup (σ : Type) (ctx : ApplicationContext σ) (args : List Value)
    (kwargs : Kwargs) (w w' : σ) (msg : Message) (r : ResponseProxy σ)
    (rs : List (ResponseProxy σ)) (h0 : ctx._responses = r :: rs)
    (hcall : ctx._interaction.execute (stripFollowupArgs args)
      { stripCommonKwargs kwargs with response_type := none } w = (.ok msg, w')) :
    ctx.respond args kwargs w =
      (.ok { _message := some msg, _fetcher := none },
        { ctx with _responses :=
          ctx._responses ++ [{ _message := some msg, _fetcher := none }] },
        w') ∧
    (ctx.respond args kwargs w).2.1._responses.length = ctx._responses.length + 1 ∧
    (ctx.respond args kwargs w).2.1.previous_response =
      some { _message := some msg, _fetcher := none } := by
  have main : ctx.respond args kwargs w =
      (.ok { _message := some msg, _fetcher := none },
        { ctx with _responses :=
          ctx._responses ++ [{ _message := some msg, _fetcher := none }] },
        w') := by
    simp only [ApplicationContext.respond, h0]
    rw [hcall]
  refine ⟨main, ?_, ?_⟩
  · rw [main]
    simp
  · rw [main]
    show ApplicationContext.previous_response
        { ctx with _responses :=
          ctx._responses ++ [{ _message := some msg, _fetcher := none }] } = _
    unfold ApplicationContext.previous_response
    rw [h0, List.getLast?_concat]
    simp

/-- Claim C2, witness: second `respond` on a concrete one-response context,
with a leading positional token and a `response_type`/`nonce` keyword to
exercise the stripping. -/
theorem respond_followup_witness :
    oneRespCtx._responses = knownProxy :: [] ∧
    oneRespCtx._interaction.execute
      (stripFollowupArgs [.vrt .MESSAGE_CREATE, .vstr "world"])
      { (stripCommonKwargs
          { response_type := some .MESSAGE_CREATE, nonce := some (.vstr "n") }) with
        response_type := none } 0 = (.ok ⟨0⟩, 1) ∧
    (oneRespCtx.respond [.vrt .MESSAGE_CREATE, .vstr "world"]
        { response_type := some .MESSAGE_CREATE, nonce := some (.vstr "n") } 0 =
      (.ok { _message := some ⟨0⟩, _fetcher := none },
        { oneRespCtx with _responses :=
          oneRespCtx._responses ++ [{ _message := some ⟨0⟩, _fetcher := none }] },
        1) ∧
    (oneRespCtx.respond [.vrt .MESSAGE_CREATE, .vstr "world"]
        { response_type := some .MESSAGE_CREATE, nonce := some (.vstr "n") } 0).2.1._responses.length =
      oneRespCtx._responses.length + 1 ∧
    (oneRespCtx.respond [.vrt .MESSAGE_CREATE, .vstr "world"]
        { response_type := some .MESSAGE_CREATE, nonce := some (.vstr "n") } 0).2.1.previous_response =
      some { _message := some ⟨0⟩, _fetcher := none }) :=
  ⟨rfl, rfl,
    respond_followup Nat oneRespCtx [.vrt .MESSAGE_CREATE, .vstr "world"]
      { response_type := some .MESSAGE_CREATE, nonce := some (.vstr "n") } 0 1 ⟨0⟩
      knownProxy [] rfl rfl⟩

/-- Claim C9: when the platform call raises — `create_initial_response` on the
first call, `execute` on follow-ups — the error propagates unmodified as the
result of `respond`, and the returned context is the input context unchanged:
no proxy was appended to the history. -/
theorem respond_error_propagates (σ : Type) (ctx : ApplicationContext σ) (args : List Value)
    (kwargs : Kwargs) (w w' : σ) (e : PyError) :
    (ctx._responses = [] →
      ctx._interaction.create_initial_response
        (stripAttachmentKwargs (applyInitialArgs args (stripCommonKwargs kwargs))) w =
        (.error e, w') →
      ctx.respond args kwargs w = (.error e, ctx, w')) ∧
    ∀ r rs, ctx._responses = r :: rs →
      ctx._interaction.execute (stripFollowupArgs args)
        { stripCommonKwargs kwargs with response_type := none } w = (.error e, w') →
      ctx.respond args kwargs w = (.error e, ctx, w') := by
  constructor
  · intro h0 hcall
    simp only [ApplicationContext.respond, h0]
    rw [hcall]
  · intro r rs h0 hcall
    simp only [ApplicationContext.respond, h0]
    rw [hcall]

/-- Claim C9, witness: over the always-failing interaction, both the
first-call path and the follow-up path return the platform error with the
context (and so the history) unchanged. -/
theorem respond_error_propagates_witness :
    (failCtx._responses = [] ∧
      failCtx._interaction.create_initial_response
        (stripAttachmentKwargs (applyInitialArgs [.vstr "x"] (stripCommonKwargs {}))) 0 =
        (.error (.platformError 1), 0) ∧
      failCtx.respond [.vstr "x"] {} 0 = (.error (.platformError 1), failCtx, 0)) ∧
    (failCtx2._responses = knownProxy :: [] ∧
      failCtx2._interaction.execute (stripFollowupArgs [.vstr "x"])
        { stripCommonKwargs {} with response_type := none } 0 =
        (.error (.platformError 2), 0) ∧
      failCtx2.respond [.vstr "x"] {} 0 = (.error (.platformError 2), failCtx2, 0)) :=
  ⟨⟨rfl, rfl,
      (respond_error_propagates Nat failCtx [.vstr "x"] {} 0 0 (.platformError 1)).1 rfl rfl⟩,
    ⟨rfl, rfl,
      (respond_error_propagates Nat failCtx2 [.vstr "x"] {} 0 0 (.platformError 2)).2
        knownProxy [] rfl rfl⟩⟩

/-- Claim C10: folding positionals into keywords touches `response_type` only
when a positional argument is present, so a first `respond` given content only
as a keyword argument calls `create_initial_response` with no `response_type`
at all (no `MESSAGE_CREATE` default is applied). -/
theorem respond_first_call_keyword_content_no_default (σ : Type)
    (ctx : ApplicationContext σ) (v : Value) (w w' : σ) (h0 : ctx._responses = [])
    (hcall : ctx._interaction.create_initial_response { content := some v } w =
      (.ok (), w')) :
    (∀ kwargs : Kwargs, (applyInitialArgs [] kwargs).response_type = kwargs.response_type) ∧
    ctx.respond [] { content := some v } w =
      (.ok { _message := none, _fetcher := some ctx._interaction.fetch_initial_response },
        { ctx with _responses :=
          [{ _message := none, _fetcher := some ctx._interaction.fetch_initial_response }] },
        w') := by
  have hk : stripAttachmentKwargs (applyInitialArgs []
      (stripCommonKwargs { content := some v })) = { content := some v } := rfl
  refine ⟨fun _ => rfl, ?_⟩
  simp only [ApplicationContext.respond, h0]
  rw [hk, hcall]
  rfl

/-- Claim C10, witness: content passed only as a keyword on a concrete
empty-history context; the platform call carries no response type. -/
theorem respond_first_call_keyword_content_no_default_witness :
    emptyCtx._responses = [] ∧
    emptyCtx._interaction.create_initial_response { content := some (.vstr "hi") } 0 =
      (.ok (), 1) ∧
    ((∀ kwargs : Kwargs,
        (applyInitialArgs [] kwargs).response_type = kwargs.response_type) ∧
      emptyCtx.respond [] { content := some (.vstr "hi") } 0 =
        (.ok { _message := none, _fetcher := some emptyCtx._interaction.fetch_initial_response },
          { emptyCtx with _responses :=
            [{ _message := none, _fetcher := some emptyCtx._interaction.fetch_initial_response }] },
          1)) :=
  ⟨rfl, rfl,
    respond_first_call_keyword_content_no_default Nat emptyCtx (.vstr "hi") 0 1 rfl rfl⟩

end Lightbulb
